import Mathlib

/-!
Shallow embedding of the spread-monitor loop in `monitor.py`.

Spreads and prices are modelled as exact rationals (ℚ).  The persisted
lock file (`strict_step_lock.json`) becomes the `Lock` structure; an
absent or corrupt file is the `none` case of `Option Lock`, and
`load_lock` supplies the defaults from the Python `load_lock`.  One call
of `main` (lines 166-231 of `monitor.py`) becomes `mainTick`, which maps
the persisted store, the outcome of the two `price` fetches (`none` when
either raises), and the current wall-clock hour to a new store plus a
trace of side effects (`save_lock` writes and Telegram sends), in the
order the Python code performs them.  The Python `except` wrapper that
swallows every error is modelled by `mainTick` being total and returning
the unchanged store with an empty trace on a failed fetch.
-/

namespace PaxgMonitor

/-- Rounding a rational to two decimals, mirroring the `{gear:.2f}`
formatting inside the Python `hour_key`. -/
def round2 (q : ℚ) : ℚ := (⌊q * 100 + 1/2⌋ : ℚ) / 100

/-- A per-hour deduplication key: the wall-clock hour bucket paired with
the gear value rounded to two decimals, mirroring
`hour_key(gear)` in `monitor.py` (line 85). -/
abbrev HourKey := ℕ × ℚ

/-- The current hour together with a gear value, as produced by the
Python `hour_key`: the date-hour part is abstracted to a natural-number
hour index, the `{gear:.2f}` part to `round2 gear`. -/
def hour_key (hour : ℕ) (gear : ℚ) : HourKey := (hour, round2 gear)

/-- Contents of the persisted lock file: `high_peak`, `low_valley`, and
the per-hour dedup key sets `high` and `low`, exactly the four entries
`load_lock` (lines 65-79) defaults and `main` reads and writes. -/
structure Lock where
  high_peak : ℚ
  low_valley : ℚ
  high : List HourKey
  low : List HourKey
deriving DecidableEq, Repr

/-- The default lock contents returned by the Python `load_lock` when the
file is absent or fails to parse: `high_peak = 16.0`, `low_valley = 10.0`,
empty dedup maps. -/
def defaultLock : Lock := Lock.mk 16 10 [] []

/-- The Python `load_lock`: a missing or corrupt store (`none`) yields
`defaultLock`; otherwise the stored contents are returned as-is. -/
def load_lock (store : Option Lock) : Lock := store.getD defaultLock

/-- One observable side effect of a tick: a `save_lock` write of the
given contents, or a Telegram send for a high / low alert.  The `Bool`
on a send is the delivery outcome reported by `send_telegram_message`
(which catches every exception and returns a boolean); the two rationals
are the spread and the previous peak/valley interpolated into the
message text. -/
inductive Effect where
  | saveLock : Lock → Effect
  | sendHigh : Bool → ℚ → ℚ → Effect
  | sendLow : Bool → ℚ → ℚ → Effect
deriving DecidableEq, Repr

/-- The result of one `main` call: the persisted store afterwards and
the ordered trace of effects the call performed. -/
structure TickResult where
  store : Option Lock
  effects : List Effect
deriving DecidableEq, Repr

/-- One call of the Python `main` (lines 166-231).  `deliveryOk` is the
outcome `send_telegram_message` would report for a send this tick; the
Python code discards that boolean, so it only appears inside the trace.
`fetch` is `some (paxg, xaut)` when both `price` calls succeed and
`none` when either raises; the surrounding `try/except` then skips the
whole evaluation.  `hour` feeds `hour_key`.  The heartbeat branch reads
the lock but never writes it and sends no alert, so it is omitted. -/
def mainTick (deliveryOk : Bool) (store : Option Lock)
    (fetch : Option (ℚ × ℚ)) (hour : ℕ) : TickResult :=
  match fetch with
  | none => TickResult.mk store []
  | some pq =>
    let spread := pq.1 - pq.2
    let lock := load_lock store
    if 16 ≤ spread then
      -- gear is the raw spread itself ("不需要取整" — no rounding), line 189
      let key := hour_key hour spread
      if key ∈ lock.high then TickResult.mk store []
      else
        let old := lock.high_peak
        if old + 499/1000 < spread then
          let lock' := Lock.mk spread lock.low_valley (key :: lock.high) lock.low
          TickResult.mk (some lock')
            [Effect.saveLock lock', Effect.sendHigh deliveryOk spread old]
        else TickResult.mk store []
    else if spread ≤ 10 then
      let key := hour_key hour spread
      if key ∈ lock.low then TickResult.mk store []
      else
        let old := lock.low_valley
        if spread < old - 499/1000 then
          let lock' := Lock.mk lock.high_peak spread lock.high (key :: lock.low)
          TickResult.mk (some lock')
            [Effect.saveLock lock', Effect.sendLow deliveryOk spread old]
        else TickResult.mk store []
    else TickResult.mk store []

/-- The monitoring loop run over a list of ticks, each tick given by its
fetch outcome and its wall-clock hour; the store is threaded through and
the effect traces are concatenated in order. -/
def runTicks (deliveryOk : Bool) (store : Option Lock)
    (ticks : List (Option (ℚ × ℚ) × ℕ)) : TickResult :=
  match ticks with
  | [] => TickResult.mk store []
  | t :: rest =>
    let r := mainTick deliveryOk store t.1 t.2
    let r' := runTicks deliveryOk r.store rest
    TickResult.mk r'.store (r.effects ++ r'.effects)

/-- True when an effect is a Telegram alert send (not a lock write). -/
def isSend : Effect → Bool
  | Effect.saveLock _ => false
  | Effect.sendHigh _ _ _ => true
  | Effect.sendLow _ _ _ => true

/-- Number of alert sends in a tick result's trace. -/
def sendCount (r : TickResult) : ℕ := (r.effects.filter isSend).length

/-- The spec's gear quantization, stated for comparison with the code:
gear(x) = floor(x / gearStep) * gearStep. -/
def specGear (step x : ℚ) : ℚ := (⌊x / step⌋ : ℚ) * step

/-- Decidable bound used for dwell-free quiescence statements: the tick's
fetch, when it succeeded, produced a spread at most `g + 0.499`. -/
def spreadLe (g : ℚ) : Option (ℚ × ℚ) → Bool
  | none => true
  | some pq => decide (pq.1 - pq.2 ≤ g + 499/1000)

/-- The spec's concrete scenario: mark spreads 15.9, 16.2, 16.2, 16.2,
sampled within one hour, encoded as paxg price with xaut price 0. -/
def scenarioTicks : List (Option (ℚ × ℚ) × ℕ) :=
  [(some (159/10, 0), 0), (some (81/5, 0), 0), (some (81/5, 0), 0), (some (81/5, 0), 0)]

/-- A low fire (spread 8), then a high fire (spread 17), then a fresh
low crossing at spread 8 in the next hour. -/
def crossTicks : List (Option (ℚ × ℚ) × ℕ) :=
  [(some (8, 0), 0), (some (17, 0), 0), (some (8, 0), 1)]

/-- A high fire at spread 17 followed by a spread 17.4996 in the same
hour; both spreads lie in the same floor-to-0.5 quantization band. -/
def sameGearTicks : List (Option (ℚ × ℚ) × ℕ) :=
  [(some (17, 0), 0), (some (43749/2500, 0), 0)]

/-- Unfolding of `mainTick` on a successful fetch into its branch tree. -/
theorem mainTick_some_eq (ok : Bool) (store : Option Lock) (p x : ℚ) (h : ℕ) :
    mainTick ok store (some (p, x)) h =
      (if 16 ≤ p - x then
        if hour_key h (p - x) ∈ (load_lock store).high then TickResult.mk store []
        else if (load_lock store).high_peak + 499/1000 < p - x then
          TickResult.mk
            (some (Lock.mk (p - x) (load_lock store).low_valley
              (hour_key h (p - x) :: (load_lock store).high) (load_lock store).low))
            [Effect.saveLock (Lock.mk (p - x) (load_lock store).low_valley
              (hour_key h (p - x) :: (load_lock store).high) (load_lock store).low),
             Effect.sendHigh ok (p - x) (load_lock store).high_peak]
        else TickResult.mk store []
      else if p - x ≤ 10 then
        if hour_key h (p - x) ∈ (load_lock store).low then TickResult.mk store []
        else if p - x < (load_lock store).low_valley - 499/1000 then
          TickResult.mk
            (some (Lock.mk (load_lock store).high_peak (p - x)
              (load_lock store).high (hour_key h (p - x) :: (load_lock store).low)))
            [Effect.saveLock (Lock.mk (load_lock store).high_peak (p - x)
              (load_lock store).high (hour_key h (p - x) :: (load_lock store).low)),
             Effect.sendLow ok (p - x) (load_lock store).low_valley]
        else TickResult.mk store []
      else TickResult.mk store []) := rfl

/-- A high alert is in the trace of a successful-fetch tick exactly when
the zone check, the hour-key dedup and the peak gate all pass, and then
its payload is the raw spread and the previous peak. -/
theorem sendHigh_mem_iff (ok b : Bool) (store : Option Lock) (p x : ℚ) (h : ℕ) (s o : ℚ) :
    Effect.sendHigh b s o ∈ (mainTick ok store (some (p, x)) h).effects ↔
      (b = ok ∧ s = p - x ∧ o = (load_lock store).high_peak ∧ 16 ≤ p - x ∧
        hour_key h (p - x) ∉ (load_lock store).high ∧
        (load_lock store).high_peak + 499/1000 < p - x) := by
  rw [mainTick_some_eq]
  split_ifs with h1 h2 h3 h4 h5 h6 <;> simp_all [List.mem_cons]

/-- A low alert is in the trace of a successful-fetch tick exactly when
the high zone is missed, the low zone check, the hour-key dedup and the
valley gate all pass, and then its payload is the raw spread and the
previous valley. -/
theorem sendLow_mem_iff (ok b : Bool) (store : Option Lock) (p x : ℚ) (h : ℕ) (s o : ℚ) :
    Effect.sendLow b s o ∈ (mainTick ok store (some (p, x)) h).effects ↔
      (b = ok ∧ s = p - x ∧ o = (load_lock store).low_valley ∧ ¬ 16 ≤ p - x ∧
        p - x ≤ 10 ∧ hour_key h (p - x) ∉ (load_lock store).low ∧
        p - x < (load_lock store).low_valley - 499/1000) := by
  rw [mainTick_some_eq]
  split_ifs with h1 h2 h3 h4 h5 h6 <;> simp_all [List.mem_cons]

/-- Some high alert is sent on a successful-fetch tick exactly when the
zone check, the hour-key dedup and the peak gate all pass. -/
theorem exists_sendHigh_iff (ok : Bool) (store : Option Lock) (p x : ℚ) (h : ℕ) :
    (∃ b s o, Effect.sendHigh b s o ∈ (mainTick ok store (some (p, x)) h).effects) ↔
      (16 ≤ p - x ∧ hour_key h (p - x) ∉ (load_lock store).high ∧
        (load_lock store).high_peak + 499/1000 < p - x) := by
  constructor
  · rintro ⟨b, s, o, hm⟩
    rcases (sendHigh_mem_iff ok b store p x h s o).mp hm with ⟨_, _, _, h4, h5, h6⟩
    exact ⟨h4, h5, h6⟩
  · rintro ⟨h4, h5, h6⟩
    exact ⟨ok, p - x, (load_lock store).high_peak,
      (sendHigh_mem_iff ok ok store p x h _ _).mpr ⟨rfl, rfl, rfl, h4, h5, h6⟩⟩

/-- Some low alert is sent on a successful-fetch tick exactly when the
high zone is missed and the low zone check, the hour-key dedup and the
valley gate all pass. -/
theorem exists_sendLow_iff (ok : Bool) (store : Option Lock) (p x : ℚ) (h : ℕ) :
    (∃ b s o, Effect.sendLow b s o ∈ (mainTick ok store (some (p, x)) h).effects) ↔
      (¬ 16 ≤ p - x ∧ p - x ≤ 10 ∧ hour_key h (p - x) ∉ (load_lock store).low ∧
        p - x < (load_lock store).low_valley - 499/1000) := by
  constructor
  · rintro ⟨b, s, o, hm⟩
    rcases (sendLow_mem_iff ok b store p x h s o).mp hm with ⟨_, _, _, h4, h5, h6, h7⟩
    exact ⟨h4, h5, h6, h7⟩
  · rintro ⟨h4, h5, h6, h7⟩
    exact ⟨ok, p - x, (load_lock store).low_valley,
      (sendLow_mem_iff ok ok store p x h _ _).mpr ⟨rfl, rfl, rfl, h4, h5, h6, h7⟩⟩

/-- Per tick, `high_peak` never decreases, and it strictly increases
exactly when a high alert was sent this tick. -/
theorem highPeak_tick (ok : Bool) (store : Option Lock) (f : Option (ℚ × ℚ)) (h : ℕ) :
    (load_lock store).high_peak ≤ (load_lock (mainTick ok store f h).store).high_peak ∧
      ((∃ b s o, Effect.sendHigh b s o ∈ (mainTick ok store f h).effects) ↔
        (load_lock store).high_peak < (load_lock (mainTick ok store f h).store).high_peak) := by
  match f with
  | none => simp [mainTick]
  | some (p, x) =>
    rw [mainTick_some_eq]
    split_ifs with h1 h2 h3 h4 h5 h6 <;>
      simp_all [List.mem_cons, load_lock] <;> exact ⟨by linarith, by linarith⟩

/-- Per tick, `low_valley` never increases, and it strictly decreases
exactly when a low alert was sent this tick. -/
theorem lowValley_tick (ok : Bool) (store : Option Lock) (f : Option (ℚ × ℚ)) (h : ℕ) :
    (load_lock (mainTick ok store f h).store).low_valley ≤ (load_lock store).low_valley ∧
      ((∃ b s o, Effect.sendLow b s o ∈ (mainTick ok store f h).effects) ↔
        (load_lock (mainTick ok store f h).store).low_valley < (load_lock store).low_valley) := by
  match f with
  | none => simp [mainTick]
  | some (p, x) =>
    rw [mainTick_some_eq]
    split_ifs with h1 h2 h3 h4 h5 h6 <;>
      simp_all [List.mem_cons, load_lock] <;> exact ⟨by linarith, by linarith⟩

/-- Over any run, `high_peak` is non-decreasing and `low_valley` is
non-increasing. -/
theorem peak_valley_run (ok : Bool) (store : Option Lock)
    (ticks : List (Option (ℚ × ℚ) × ℕ)) :
    (load_lock store).high_peak ≤ (load_lock (runTicks ok store ticks).store).high_peak ∧
      (load_lock (runTicks ok store ticks).store).low_valley ≤ (load_lock store).low_valley := by
  induction ticks generalizing store with
  | nil => simp [runTicks]
  | cons t rest ih =>
    have h1 := (highPeak_tick ok store t.1 t.2).1
    have h2 := (lowValley_tick ok store t.1 t.2).1
    have h3 := ih (mainTick ok store t.1 t.2).store
    simp only [runTicks]
    exact ⟨le_trans h1 h3.1, le_trans h3.2 h2⟩

/-- If the tick's spread (when fetched) stays at most `high_peak + 0.499`,
the tick sends no high alert and leaves `high_peak` unchanged. -/
theorem no_high_fire_tick (ok : Bool) (store : Option Lock) (f : Option (ℚ × ℚ)) (h : ℕ)
    (hle : spreadLe (load_lock store).high_peak f = true) :
    (∀ b s o, Effect.sendHigh b s o ∉ (mainTick ok store f h).effects) ∧
      (load_lock (mainTick ok store f h).store).high_peak = (load_lock store).high_peak := by
  have hno : ∀ b s o, Effect.sendHigh b s o ∉ (mainTick ok store f h).effects := by
    intro b s o hmem
    match f with
    | none => simp [mainTick] at hmem
    | some (p, x) =>
      rw [sendHigh_mem_iff] at hmem
      simp only [spreadLe, decide_eq_true_eq] at hle
      linarith [hmem.2.2.2.2.2, hle]
  refine ⟨hno, ?_⟩
  rcases (highPeak_tick ok store f h) with ⟨hle', hiff⟩
  by_contra hne
  obtain ⟨b, s, o, hm⟩ := hiff.mpr (lt_of_le_of_ne hle' (fun e => hne e.symm))
  exact hno b s o hm

/-- Run-level quiescence: starting from `high_peak = g`, as long as every
fetched spread stays at most `g + 0.499`, no high alert is ever sent and
`high_peak` remains `g` throughout. -/
theorem no_high_fire_run (ok : Bool) (store : Option Lock) (g : ℚ)
    (ticks : List (Option (ℚ × ℚ) × ℕ))
    (hg : (load_lock store).high_peak = g)
    (hb : ∀ t ∈ ticks, spreadLe g t.1 = true) :
    (∀ b s o, Effect.sendHigh b s o ∉ (runTicks ok store ticks).effects) ∧
      (load_lock (runTicks ok store ticks).store).high_peak = g := by
  induction ticks generalizing store with
  | nil => exact ⟨by simp [runTicks], by simpa [runTicks] using hg⟩
  | cons t rest ih =>
    have h0 : spreadLe (load_lock store).high_peak t.1 = true := by
      rw [hg]; exact hb t (by simp)
    have ht := no_high_fire_tick ok store t.1 t.2 h0
    have hg' : (load_lock (mainTick ok store t.1 t.2).store).high_peak = g := ht.2.trans hg
    have hrest := ih (mainTick ok store t.1 t.2).store hg'
      (fun u hu => hb u (List.mem_cons_of_mem t hu))
    refine ⟨?_, ?_⟩
    · intro b s o hm
      simp only [runTicks, List.mem_append] at hm
      rcases hm with hm | hm
      · exact ht.1 b s o hm
      · exact hrest.1 b s o hm
    · simpa [runTicks] using hrest.2

/-- C1: counterexample.  On the scenario [15.9, 16.2, 16.2, 16.2] with no
prior memory the code sends no alert at all — not exactly one: `load_lock`
defaults `high_peak` to 16.0 and 16.2 never exceeds 16.0 + 0.499, so the
third sample does not fire. -/
theorem c1_counterexample : sendCount (runTicks true none scenarioTicks) ≠ 1 := by
  norm_num [scenarioTicks, runTicks, mainTick, load_lock, defaultLock, sendCount, isSend]

/-- C1 (amended): with upper threshold 16 and no prior persisted memory,
the mark-spread sequence [15.9, 16.2, 16.2, 16.2] causes no alert and no
store write on any of the four samples, because the first sample is below
the threshold and the other three fail the peak gate
`spread > high_peak + 0.499` against the default peak 16.0. -/
theorem c1_no_alert_run : runTicks true none scenarioTicks = TickResult.mk none [] := by
  norm_num [scenarioTicks, runTicks, mainTick, load_lock, defaultLock]

/-- C2: counterexample.  A run whose very first evaluation tick sees
spread 17 fires the high alert on that same tick: the trigger condition
has not held continuously for any prior duration, so no dwell
requirement is enforced before firing. -/
theorem c2_counterexample :
    runTicks true none [(some (17, 0), 0)] = TickResult.mk
      (some (Lock.mk 17 10 [(0, 17)] []))
      [Effect.saveLock (Lock.mk 17 10 [(0, 17)] []), Effect.sendHigh true 17 16] := by
  norm_num [runTicks, mainTick, load_lock, defaultLock, hour_key, round2]

/-- C2 (amended): an alert is sent only when, at that very tick, the zone
condition, the per-hour dedup key freshness and the peak/valley gate all
hold; there is no dwell requirement, and each later alert re-checks the
same three conditions because every tick reloads the lock. -/
theorem c2_gates (ok b : Bool) (store : Option Lock) (p x : ℚ) (h : ℕ) (s o : ℚ) :
    (Effect.sendHigh b s o ∈ (mainTick ok store (some (p, x)) h).effects →
      16 ≤ p - x ∧ hour_key h (p - x) ∉ (load_lock store).high ∧
        (load_lock store).high_peak + 499/1000 < p - x) ∧
    (Effect.sendLow b s o ∈ (mainTick ok store (some (p, x)) h).effects →
      p - x ≤ 10 ∧ hour_key h (p - x) ∉ (load_lock store).low ∧
        p - x < (load_lock store).low_valley - 499/1000) := by
  constructor
  · intro hm
    rcases (sendHigh_mem_iff ok b store p x h s o).mp hm with ⟨_, _, _, h4, h5, h6⟩
    exact ⟨h4, h5, h6⟩
  · intro hm
    rcases (sendLow_mem_iff ok b store p x h s o).mp hm with ⟨_, _, _, _, h5, h6, h7⟩
    exact ⟨h5, h6, h7⟩

/-- Instantiation of the C2 gate theorem at a concrete firing tick. -/
theorem c2_gates_witness :
    16 ≤ (17 : ℚ) - 0 ∧ hour_key 0 ((17 : ℚ) - 0) ∉ (load_lock none).high ∧
      (load_lock none).high_peak + 499/1000 < (17 : ℚ) - 0 :=
  (c2_gates true true none 17 0 0 17 16).1
    (by norm_num [mainTick, load_lock, defaultLock, hour_key, round2])

/-- C3: counterexample.  With spread 16.7 the code fires using gear 16.7
itself: the alert and the stored peak carry the raw spread, whereas the
spec quantization floor(16.7/0.5)*0.5 is 16.5, and 16.7 is not an
integer multiple of the 0.5 gear step. -/
theorem c3_counterexample :
    Effect.sendHigh true (167/10) 16 ∈
        (mainTick true none (some (167/10, 0)) 0).effects ∧
      (load_lock (mainTick true none (some (167/10, 0)) 0).store).high_peak = 167/10 ∧
      specGear (1/2) (167/10) = 33/2 ∧
      ¬ ∃ n : ℤ, (167/10 : ℚ) = n * (1/2) := by
  refine ⟨?_, ?_, ?_, ?_⟩
  · norm_num [mainTick, load_lock, defaultLock, hour_key, round2]
  · norm_num [mainTick, load_lock, defaultLock, hour_key, round2]
  · norm_num [specGear]
  · rintro ⟨n, hn⟩
    have h5 : ((5 * n : ℤ) : ℚ) = 167 := by push_cast; linarith
    have h6 : (5 * n : ℤ) = 167 := by exact_mod_cast h5
    omega

/-- C3 (amended): the gear the code gates and reports with is the raw
mark spread itself — the alert payload and the updated peak/valley equal
`paxg - xaut` exactly, with no quantization to a multiple of a step. -/
theorem c3_raw_gear (ok b : Bool) (store : Option Lock) (p x : ℚ) (h : ℕ) (s o : ℚ) :
    (Effect.sendHigh b s o ∈ (mainTick ok store (some (p, x)) h).effects →
      s = p - x ∧
        (load_lock (mainTick ok store (some (p, x)) h).store).high_peak = p - x) ∧
    (Effect.sendLow b s o ∈ (mainTick ok store (some (p, x)) h).effects →
      s = p - x ∧
        (load_lock (mainTick ok store (some (p, x)) h).store).low_valley = p - x) := by
  rw [mainTick_some_eq]
  split_ifs <;> simp_all [List.mem_cons, load_lock]

/-- Instantiation of the C3 raw-gear theorem at a concrete firing tick. -/
theorem c3_raw_gear_witness :
    (17 : ℚ) = 17 - 0 ∧
      (load_lock (mainTick true none (some (17, 0)) 0).store).high_peak = (17 : ℚ) - 0 :=
  (c3_raw_gear true true none 17 0 0 17 16).1
    (by norm_num [mainTick, load_lock, defaultLock, hour_key, round2])

/-- C4: counterexample.  From an empty store, a low fire at spread 8
(valley becomes 8) followed by a high fire at spread 17 leaves
`low_valley` at 8 — the opposite direction's memory is not cleared by the
firing — and the next qualifying low crossing (spread 8, in zone, fresh
hour key) emits nothing, because it still must beat the remembered valley
by more than 0.499. -/
theorem c4_counterexample :
    runTicks true none crossTicks = TickResult.mk
        (some (Lock.mk 17 8 [(0, 17)] [(0, 8)]))
        [Effect.saveLock (Lock.mk 16 8 [] [(0, 8)]), Effect.sendLow true 8 10,
         Effect.saveLock (Lock.mk 17 8 [(0, 17)] [(0, 8)]), Effect.sendHigh true 17 16] ∧
      (load_lock (runTicks true none crossTicks).store).low_valley = 8 := by
  norm_num [crossTicks, runTicks, mainTick, load_lock, defaultLock, hour_key, round2]

/-- C4 (amended): a firing never touches the opposite direction's
persisted memory: a high fire preserves `low_valley` and the low dedup
keys, and a low fire preserves `high_peak` and the high dedup keys, so
the opposite direction keeps its full step-gate requirement. -/
theorem c4_no_cross_reset (ok b : Bool) (store : Option Lock) (p x : ℚ) (h : ℕ) (s o : ℚ) :
    (Effect.sendHigh b s o ∈ (mainTick ok store (some (p, x)) h).effects →
      (load_lock (mainTick ok store (some (p, x)) h).store).low_valley =
          (load_lock store).low_valley ∧
        (load_lock (mainTick ok store (some (p, x)) h).store).low =
          (load_lock store).low) ∧
    (Effect.sendLow b s o ∈ (mainTick ok store (some (p, x)) h).effects →
      (load_lock (mainTick ok store (some (p, x)) h).store).high_peak =
          (load_lock store).high_peak ∧
        (load_lock (mainTick ok store (some (p, x)) h).store).high =
          (load_lock store).high) := by
  rw [mainTick_some_eq]
  split_ifs <;> simp_all [List.mem_cons, load_lock]

/-- Instantiation of the C4 no-cross-reset theorem at a concrete firing
tick starting from a store that remembers a low valley of 8. -/
theorem c4_no_cross_reset_witness :
    (load_lock (mainTick true (some (Lock.mk 16 8 [] [(0, 8)]))
          (some (17, 0)) 0).store).low_valley =
        (load_lock (some (Lock.mk 16 8 [] [(0, 8)]))).low_valley ∧
      (load_lock (mainTick true (some (Lock.mk 16 8 [] [(0, 8)]))
          (some (17, 0)) 0).store).low =
        (load_lock (some (Lock.mk 16 8 [] [(0, 8)]))).low :=
  (c4_no_cross_reset true true (some (Lock.mk 16 8 [] [(0, 8)])) 17 0 0 17 16).1
    (by norm_num [mainTick, load_lock, hour_key, round2])

/-- C5: counterexample.  `load_lock` on an absent store returns peaks
16.0 and 10.0 — not a memory with both fields `None` — and a first-ever
qualifying crossing at spread 16.2 (in zone, fresh key) fires nothing:
the first crossing's eligibility does depend on its value. -/
theorem c5_counterexample :
    load_lock none = Lock.mk 16 10 [] [] ∧
      16 ≤ (81/5 : ℚ) - 0 ∧
      mainTick true none (some (81/5, 0)) 0 = TickResult.mk none [] := by
  refine ⟨rfl, by norm_num, ?_⟩
  norm_num [mainTick, load_lock, defaultLock, hour_key, round2]

/-- C5 (amended): with the store absent or corrupt, `load_lock` yields
defaults `high_peak = 16.0`, `low_valley = 10.0`; on such a first run a
high alert fires exactly when the spread exceeds 16.499 and a low alert
exactly when it is below 9.501. -/
theorem c5_first_run_gate (ok : Bool) (p x : ℚ) (h : ℕ) :
    ((∃ b s o, Effect.sendHigh b s o ∈ (mainTick ok none (some (p, x)) h).effects) ↔
      16 + 499/1000 < p - x) ∧
    ((∃ b s o, Effect.sendLow b s o ∈ (mainTick ok none (some (p, x)) h).effects) ↔
      p - x < 10 - 499/1000) := by
  constructor
  · rw [exists_sendHigh_iff]
    simp only [load_lock, Option.getD_none, defaultLock, List.not_mem_nil,
      not_false_eq_true, true_and, and_true]
    constructor
    · rintro ⟨-, h6⟩; exact h6
    · intro h6; exact ⟨by linarith, h6⟩
  · rw [exists_sendLow_iff]
    simp only [load_lock, Option.getD_none, defaultLock, List.not_mem_nil,
      not_false_eq_true, true_and, and_true]
    constructor
    · rintro ⟨-, -, h7⟩; exact h7
    · intro h7; exact ⟨by linarith, by linarith, h7⟩

/-- C6: counterexample.  With remembered peak 16.0, a spread of 16.4995 —
an advance of 0.4995, strictly smaller than the 0.5 gear step — fires
anyway, because the code's gate is `spread > peak + 0.499`, not an
advance of at least one step. -/
theorem c6_counterexample :
    Effect.sendHigh true (32999/2000) 16 ∈
        (mainTick true (some (Lock.mk 16 10 [] [])) (some (32999/2000, 0)) 0).effects ∧
      (32999/2000 : ℚ) - 16 < 1/2 := by
  norm_num [mainTick, load_lock, hour_key, round2]

/-- C6 (amended): against a remembered memory `Lock.mk P V hi lo`, a high
fire happens exactly when the spread is in zone, the hour key is fresh,
and the spread strictly exceeds P + 0.499 — so a spread exactly one 0.5
step beyond P qualifies, an advance of at most 0.499 does not, but
advances strictly between 0.499 and 0.5 also qualify; symmetrically a low
fire needs the spread strictly below V - 0.499. -/
theorem c6_gate_iff (ok : Bool) (P V : ℚ) (hi lo : List HourKey) (p x : ℚ) (h : ℕ) :
    ((∃ b s o, Effect.sendHigh b s o ∈
        (mainTick ok (some (Lock.mk P V hi lo)) (some (p, x)) h).effects) ↔
      (16 ≤ p - x ∧ hour_key h (p - x) ∉ hi ∧ P + 499/1000 < p - x)) ∧
    ((∃ b s o, Effect.sendLow b s o ∈
        (mainTick ok (some (Lock.mk P V hi lo)) (some (p, x)) h).effects) ↔
      (¬ 16 ≤ p - x ∧ p - x ≤ 10 ∧ hour_key h (p - x) ∉ lo ∧
        p - x < V - 499/1000)) := by
  constructor
  · rw [exists_sendHigh_iff]; simp [load_lock]
  · rw [exists_sendLow_iff]; simp [load_lock]

/-- C7: confirmed.  Whenever a tick's trace is non-empty it consists of
exactly a `save_lock` of the new contents followed by the alert send, so
the updated memory is persisted before delivery is attempted; and the
resulting store is the same whatever delivery outcome the transport
reports, so a failed send rolls nothing back. -/
theorem c7_persist_before_send (a b : Bool) (store : Option Lock)
    (f : Option (ℚ × ℚ)) (h : ℕ) :
    (mainTick a store f h).store = (mainTick b store f h).store ∧
      ((mainTick a store f h).effects = [] ∨
        ∃ l s o, (mainTick a store f h).store = some l ∧
          ((mainTick a store f h).effects =
              [Effect.saveLock l, Effect.sendHigh a s o] ∨
            (mainTick a store f h).effects =
              [Effect.saveLock l, Effect.sendLow a s o])) := by
  match f with
  | none => exact ⟨rfl, Or.inl rfl⟩
  | some (p, x) =>
    rw [mainTick_some_eq a, mainTick_some_eq b]
    split_ifs <;>
      first
        | exact ⟨rfl, Or.inl rfl⟩
        | exact ⟨rfl, Or.inr ⟨_, _, _, rfl, Or.inl rfl⟩⟩
        | exact ⟨rfl, Or.inr ⟨_, _, _, rfl, Or.inr rfl⟩⟩

/-- C8: confirmed.  When either `price` call raises (network, parse or
missing-symbol failure), the surrounding `try/except` makes the tick a
no-op: no alert effect, no store write, the state is exactly as before,
and the loop does not crash. -/
theorem c8_fetch_failure_skips (ok : Bool) (store : Option Lock) (h : ℕ) :
    mainTick ok store none h = TickResult.mk store [] := rfl

/-- C9: counterexample.  A high fire at spread 17 is followed in the same
hour by spread 17.4996; both values quantize to the same floor-to-0.5
gear 17.0, yet a second high alert is sent, because the code gates on the
raw spread exceeding the remembered peak by more than 0.499, not on the
quantized gear changing. -/
theorem c9_counterexample :
    specGear (1/2) (43749/2500) = specGear (1/2) 17 ∧
      runTicks true none sameGearTicks = TickResult.mk
        (some (Lock.mk (43749/2500) 10 [(0, 35/2), (0, 17)] []))
        [Effect.saveLock (Lock.mk 17 10 [(0, 17)] []),
         Effect.sendHigh true 17 16,
         Effect.saveLock (Lock.mk (43749/2500) 10 [(0, 35/2), (0, 17)] []),
         Effect.sendHigh true (43749/2500) 17] := by
  constructor
  · norm_num [specGear]
  · norm_num [sameGearTicks, runTicks, mainTick, load_lock, defaultLock, hour_key, round2]

/-- C9 (amended): after the remembered peak is `g`, no further high alert
is sent on any subsequent tick whose spread stays at most `g + 0.499`
(in particular whenever it stays exactly at `g`), and the peak remains
`g` throughout such a run. -/
theorem c9_no_refire (ok : Bool) (store : Option Lock) (g : ℚ)
    (ticks : List (Option (ℚ × ℚ) × ℕ))
    (hg : (load_lock store).high_peak = g)
    (hb : ∀ t ∈ ticks, spreadLe g t.1 = true) :
    (∀ b s o, Effect.sendHigh b s o ∉ (runTicks ok store ticks).effects) ∧
      (load_lock (runTicks ok store ticks).store).high_peak = g :=
  no_high_fire_run ok store g ticks hg hb

/-- Instantiation of the C9 no-refire theorem: with remembered peak 17, a
tick at spread 17.2 sends no high alert and leaves the peak at 17. -/
theorem c9_no_refire_witness :
    Effect.sendHigh true (86/5) 17 ∉
        (runTicks true (some (Lock.mk 17 10 [] []))
          [(some (86/5, 0), 0)]).effects ∧
      (load_lock (runTicks true (some (Lock.mk 17 10 [] []))
          [(some (86/5, 0), 0)]).store).high_peak = 17 :=
  ⟨(c9_no_refire true (some (Lock.mk 17 10 [] [])) 17 [(some (86/5, 0), 0)]
      (by norm_num [load_lock]) (by norm_num [spreadLe])).1 true (86/5) 17,
    (c9_no_refire true (some (Lock.mk 17 10 [] [])) 17 [(some (86/5, 0), 0)]
      (by norm_num [load_lock]) (by norm_num [spreadLe])).2⟩

/-- C10: confirmed.  Over every run the persisted `high_peak` is
non-decreasing and `low_valley` non-increasing; per tick, `high_peak`
strictly increases exactly when a high alert is sent and `low_valley`
strictly decreases exactly when a low alert is sent — so each firing
moves its own field strictly and nothing else ever modifies either. -/
theorem c10_monotone_memory (ok : Bool) (store : Option Lock) :
    (∀ ticks : List (Option (ℚ × ℚ) × ℕ),
      (load_lock store).high_peak ≤
          (load_lock (runTicks ok store ticks).store).high_peak ∧
        (load_lock (runTicks ok store ticks).store).low_valley ≤
          (load_lock store).low_valley) ∧
    (∀ (f : Option (ℚ × ℚ)) (h : ℕ),
      ((∃ b s o, Effect.sendHigh b s o ∈ (mainTick ok store f h).effects) ↔
        (load_lock store).high_peak <
          (load_lock (mainTick ok store f h).store).high_peak) ∧
      ((∃ b s o, Effect.sendLow b s o ∈ (mainTick ok store f h).effects) ↔
        (load_lock (mainTick ok store f h).store).low_valley <
          (load_lock store).low_valley)) :=
  ⟨fun ticks => peak_valley_run ok store ticks,
    fun f h => ⟨(highPeak_tick ok store f h).2, (lowValley_tick ok store f h).2⟩⟩

/-- Instantiation of the C10 monotonicity theorem: a concrete high firing
strictly raises the persisted peak. -/
theorem c10_monotone_memory_witness :
    (load_lock (none : Option Lock)).high_peak <
      (load_lock (mainTick true none (some (17, 0)) 0).store).high_peak :=
  ((c10_monotone_memory true none).2 (some (17, 0)) 0).1.mp
    ⟨true, 17, 16, by norm_num [mainTick, load_lock, defaultLock, hour_key, round2]⟩

end PaxgMonitor
